import Mathlib

/-!
Verification development for the pysitemaps package (serpwings/pysitemaps).

The Python source (src/pysitemaps/__init__.py) is shallowly embedded below.
Network fetches (the requests library) and XML/HTML parsing (BeautifulSoup,
xml.dom.minidom) are external collaborators: a fetch is a function argument
`fetch : String -> Option NetResponse` (`none` models the exception path of
`get_remote_content`, which the source converts to a synthetic Mock response),
and parsed markup is an `Xml` tree forest.  Python exceptions escaping a
function are modelled by an `Option` result (`none` = the call raised).
-/

/-- A parsed XML/HTML node, as seen through the BeautifulSoup collaborator:
elements with a tag, attributes and children, text nodes, comments, and
processing instructions. -/
inductive Xml where
  | elem (tag : String) (attrs : List (String × String)) (children : List Xml)
  | text (s : String)
  | comment (s : String)
  | procInst (target content : String)

/-- Tag of an element node, `none` for non-element nodes. -/
def Xml.tagOf : Xml → Option String
  | .elem t _ _ => some t
  | _ => none

/-- Does this node match tag `t` (BeautifulSoup `find` matches Tags only)? -/
def Xml.isTag (t : String) (x : Xml) : Bool := x.tagOf = some t

/-- Attribute list of a node (empty for non-elements); `lookup` of a key
models `tag.has_attr` / `tag[...]`. -/
def Xml.attrsOf : Xml → List (String × String)
  | .elem _ a _ => a
  | _ => []

mutual

/-- All element nodes of a subtree in document (pre-order) order, the root
element first.  Text, comment and processing-instruction nodes do not appear:
BeautifulSoup tag searches match Tag nodes only. -/
def Xml.elemsPre : Xml → List Xml
  | .elem t a cs => .elem t a cs :: Xml.elemsList cs
  | _ => []

/-- Element nodes of a forest in document order. -/
def Xml.elemsList : List Xml → List Xml
  | [] => []
  | x :: xs => x.elemsPre ++ Xml.elemsList xs

end

mutual

/-- The `.text` of a BeautifulSoup node: concatenation of all descendant
string contents in document order. -/
def Xml.textOf : Xml → String
  | .elem _ _ cs => Xml.textList cs
  | .text s => s
  | _ => ""

/-- Concatenated text of a forest. -/
def Xml.textList : List Xml → String
  | [] => ""
  | x :: xs => x.textOf ++ Xml.textList xs

end

/-- A parsed document (`soup`) is a forest; this is its element list in
document order. -/
def flatDoc (doc : List Xml) : List Xml := Xml.elemsList doc

/-- The descendant elements of an element node, in document order (what
`tag.find_all(...)` searches over, and the prefix of the document that
follows the node itself in pre-order). -/
def Xml.descElems : Xml → List Xml
  | .elem _ _ cs => Xml.elemsList cs
  | _ => []

/-- `findNextTag t rest = rest.find? (tag = t)`: BeautifulSoup `findNext(t)`,
where `rest` is the list of elements after the current node in document
order (its own descendants first). -/
def findNextTag (t : String) (rest : List Xml) : Option Xml :=
  rest.find? (Xml.isTag t)

/-- The record `{loc, lastmod, images}` of one sitemap URL entry: the
`as_dict` view of a `Url` object whose fields are all explicit. -/
structure UrlRec where
  loc : String
  lastmod : String
  images : List String
deriving DecidableEq

/-- Inner loop of `extract_url_set`, images part: for each `image:image`
element among the descendants `ds` of a `<url>` (with `after` the document
elements after the `<url>` subtree), Python evaluates
`img_loc.findNext("image:loc").text`.  `findNext` runs over the rest of the
whole document, i.e. the remaining descendants followed by `after`; a missing
`image:loc` raises AttributeError (`none`). -/
def imagesGo : List Xml → List Xml → Option (List String)
  | [], _ => some []
  | d :: ds, after =>
    if Xml.isTag "image:image" d then
      match findNextTag "image:loc" (ds ++ after), imagesGo ds after with
      | some t, some l => some (t.textOf :: l)
      | _, _ => none
    else imagesGo ds after

/-- Main loop of `extract_url_set` over the document-order element list:
for each `<url>` element, `loc` is `url.findNext("loc").text` when present
else `""` (likewise `lastmod`), searching everything after the `<url>` in
document order (its own descendants first, then the rest of the document);
images come from its `image:image` descendants. -/
def extractGo : List Xml → Option (List UrlRec)
  | [] => some []
  | x :: rest =>
    if Xml.isTag "url" x then
      let locv := match findNextTag "loc" rest with
        | some t => t.textOf
        | none => ""
      let lmv := match findNextTag "lastmod" rest with
        | some t => t.textOf
        | none => ""
      match imagesGo x.descElems (rest.drop x.descElems.length), extractGo rest with
      | some imgs, some l => some (⟨locv, lmv, imgs⟩ :: l)
      | _, _ => none
    else extractGo rest

/-- `extract_url_set(xml_as_text)` of the source, over the parsed forest:
one `Url` per `<url>` element of the soup.  `none` models an uncaught
AttributeError (an `image:image` with no following `image:loc`). -/
def extract_url_set (doc : List Xml) : Option (List UrlRec) :=
  extractGo (flatDoc doc)

example : extract_url_set
    [.elem "urlset" []
      [.elem "url" [] [.elem "loc" [] [.text "a.html"],
                       .elem "lastmod" [] [.text "2022"],
                       .elem "image:image" [] [.elem "image:loc" [] [.text "abc.png"]]]]]
    = some [⟨"a.html", "2022", ["abc.png"]⟩] := by decide

/-! ## Python string primitives

Character-list implementations of the `str` operations used by the source,
written against the CPython semantics of `split`, `strip`, `startswith`,
`endswith` and `in`. -/

/-- `str.split(sep)` with non-empty separator `sh :: st`: scan left to right,
cut at each occurrence of the separator.  The first argument is recursion
fuel (structural, so that the kernel can evaluate it); each step consumes at
least one character, so fuel = length of the scanned list suffices. -/
def pySplitGo (sh : Char) (st : List Char) : Nat → List Char → List (List Char)
  | _, [] => [[]]
  | 0, l => [l]
  | fuel + 1, c :: cs =>
    if (sh :: st).isPrefixOf (c :: cs) then
      [] :: pySplitGo sh st fuel (cs.drop st.length)
    else
      match pySplitGo sh st fuel cs with
      | [] => [[c]]
      | h :: t => (c :: h) :: t

/-- `s.split(sep)` for a non-empty literal separator (Python raises on an
empty separator; the source only uses non-empty ones, for which we return
`[s]` if `sep` is empty so the function is total). -/
def pySplit (sep s : String) : List String :=
  match sep.data with
  | [] => [s]
  | c :: cs => (pySplitGo c cs s.data.length s.data).map String.mk

/-- Whitespace characters removed by `str.strip()` (the ASCII ones; the
source only strips robots.txt lines and XML prologue lines). -/
def pyIsSpace (c : Char) : Bool :=
  c = ' ' || c = '\t' || c = '\n' || c = '\r' || c = '\x0b' || c = '\x0c'

/-- `str.strip()`. -/
def pyStrip (s : String) : String :=
  .mk (((s.data.dropWhile pyIsSpace).reverse.dropWhile pyIsSpace).reverse)

/-- `s.startswith(p)`. -/
def pyStartsWith (s p : String) : Bool := p.data.isPrefixOf s.data

/-- `s.endswith(p)`. -/
def pyEndsWith (s p : String) : Bool := p.data.isSuffixOf s.data

/-- `needle in hay` (substring containment). -/
def pyContainsGo (nd : List Char) : List Char → Bool
  | [] => nd.isEmpty
  | c :: cs => nd.isPrefixOf (c :: cs) || pyContainsGo nd cs

/-- `needle in hay` on strings. -/
def pyContains (needle hay : String) : Bool := pyContainsGo needle.data hay.data

/-- `s.split(sep)[-1]`: the segment after the last occurrence of `sep`
(`s` itself when `sep` does not occur). -/
def pyAfterLast (sep s : String) : String := (pySplit sep s).getLastD s

/-- `s.split(sep)[0]`: the segment before the first occurrence of `sep`
(`s` itself when `sep` does not occur). -/
def pyBeforeFirst (sep s : String) : String := (pySplit sep s).headD s

/-- `list(set(xs))`: CPython's set iteration order is unspecified, so the
model fixes first-occurrence order; the claims below never depend on the
order of a deduplicated result with more than one element. -/
def pySet (xs : List String) : List String := xs.eraseDups

example : pySplit "," "a,b,,c" = ["a", "b", "", "c"] := by decide
example : pySplit "\n" "x" = ["x"] := by decide
example : pyAfterLast "href=\"" "ab" = "ab" := by decide
example : pyStrip "  a b\n" = "a b" := by decide

/-! ## Extraction Engine: `extract_xsl_file` -/

/-- `extract_xsl_file(xml_as_text)` of the source: keep the stripped lines
that contain `".xsl"`; on the first such line return
`line.split('href="')[-1].split('"?>')[0]`; otherwise `""`.  The
`try/except` of the source is unreachable (`split` never raises), so no
`Option` is needed. -/
def extract_xsl_file (xml_as_text : String) : String :=
  let xsl_item := ((pySplit "\n" xml_as_text).filter (fun item => pyContains ".xsl" item)).map pyStrip
  match xsl_item with
  | [] => ""
  | first :: _ => pyBeforeFirst "\"?>" (pyAfterLast "href=\"" first)

example : extract_xsl_file "<?xml-stylesheet type=\"text/xsl\" href=\"main.xsl\"?>\n<urlset>" = "main.xsl" := by decide
example : extract_xsl_file "no stylesheet here" = "" := by decide

/-! ## The fetch collaborator and `get_remote_content` -/

/-- What the requests library delivers for one URL: status code, final
resolved URL (after redirects), and body text. -/
structure NetResponse where
  status_code : Nat
  url : String
  text : String
deriving DecidableEq

/-- The value `get_remote_content` hands to its callers.  `isMock` records
whether it is the synthetic `Mock(spec=Response)` built by
`mock_requests_object` on a fetch exception: a plain `Mock` never installs
`__bool__` on its type, so the sentinel is always truthy, while a real
`requests` Response is truthy iff `status_code < 400` (`Response.ok`). -/
structure Response where
  status_code : Nat
  url : String
  text : String
  isMock : Bool
deriving DecidableEq

/-- `mock_requests_object(url)` of the source: empty body, status 9999. -/
def mock_requests_object (url : String) : Response :=
  ⟨9999, url, "", true⟩

/-- `get_remote_content(url)` of the source, with the network as a
collaborator `fetch` (`none` = the try-block raised). -/
def get_remote_content (fetch : String → Option NetResponse) (url : String) : Response :=
  match fetch url with
  | some r => ⟨r.status_code, r.url, r.text, false⟩
  | none => mock_requests_object url

/-- `if response:` on a `get_remote_content` result (see `Response.isMock`). -/
def respTruthy (r : Response) : Bool :=
  r.isMock || r.status_code < 400

/-- `get_corrected_url(url, fix_slash)` of the source. -/
def get_corrected_url (url : String) (fix_slash : String) : String :=
  let url := if !pyStartsWith url "http://" && !pyStartsWith url "https://" then "http://" ++ url else url
  if !pyEndsWith url fix_slash then url ++ fix_slash else url

/-! ## Discovery Engine: `search_sitemap` -/

/-- `SITEMAP_SEARCH_PATHS` of the source, in order. -/
def SITEMAP_SEARCH_PATHS : List String :=
  ["wp-sitemap.xml", "sitemap_index.xml", "sitemap.xml", "sitemapindex.xml",
   "sitemap-index.xml", "sitemap1.xml", "sitemap.php", "sitemap/", "sitemas/",
   "sitemas.xml", "sitemap.txt", "sitemap.xml.gz", "post-sitemap.xml",
   "page-sitemap.xml", "news-sitemap.xml"]

/-- The probe-tier success test: response status below 400 and final
resolved URL ending in `".xml"`. -/
def probeCond (fetch : String → Option NetResponse) (url p : String) : Bool :=
  let r := get_remote_content fetch (url ++ p)
  r.status_code < 400 && pyEndsWith r.url ".xml"

/-- The probe loop of `search_sitemap`: try each suffix in order; on the
first success return `[response.url]`.  Also returns the list of URLs
fetched by the loop, in order, to state the short-circuit property. -/
def probeGo (fetch : String → Option NetResponse) (url : String) :
    List String → Option String × List String
  | [] => (none, [])
  | p :: ps =>
    let sitemap_url := url ++ p
    let r := get_remote_content fetch sitemap_url
    if r.status_code < 400 && pyEndsWith r.url ".xml" then
      (some r.url, [sitemap_url])
    else
      let rest := probeGo fetch url ps
      (rest.1, sitemap_url :: rest.2)

/-- The robots tier's line scan: trimmed remainders after `"Sitemap:"` of
the lines starting with `"Sitemap:"`. -/
def sitemapLines (text : String) : List String :=
  (pySplit "\n" text).filterMap fun item =>
    if pyStartsWith item "Sitemap:" then
      some (pyStrip (pyAfterLast "Sitemap:" item))
    else none

/-- The `<link>` scan of the homepage tier: `href` of every `link` element
carrying a `sitemap` attribute; `link["href"]` raises KeyError (`none`)
when such a link has no `href` attribute. -/
def linkHrefs (doc : List Xml) : Option (List String) :=
  ((flatDoc doc).filter fun x =>
      x.isTag "link" && (x.attrsOf.lookup "sitemap").isSome).mapM
    fun x => x.attrsOf.lookup "href"

/-- The homepage tier of `search_sitemap` (reached when the robots response
is falsy): fetch the base URL; if the response is truthy, return the
deduplicated `href` set of sitemap-attributed links, else `[]`.  `tr` is
the trace of URLs already fetched. -/
def homepageTier (fetch : String → Option NetResponse)
    (parse : String → List Xml) (url : String) (tr : List String) :
    Option (List String × List String) :=
  let r := get_remote_content fetch url
  if respTruthy r then
    match linkHrefs (parse r.text) with
    | some hs => some (pySet hs, tr ++ [url])
    | none => none
  else
    some ([], tr ++ [url])

/-- The robots tier of `search_sitemap` (reached when the probe loop is
exhausted): fetch `url ++ "robots.txt"`; if the response is truthy
(which includes the mock built on total fetch failure), return the
deduplicated set of `Sitemap:`-declared addresses, else fall through to
the homepage tier. -/
def robotsTier (fetch : String → Option NetResponse)
    (parse : String → List Xml) (url : String) (tr : List String) :
    Option (List String × List String) :=
  let robots_txt := url ++ "robots.txt"
  let r := get_remote_content fetch robots_txt
  if respTruthy r then
    some (pySet (sitemapLines r.text), tr ++ [robots_txt])
  else
    homepageTier fetch parse url (tr ++ [robots_txt])

/-- `search_sitemap(url)` of the source, with the network and the
HTML parser as collaborators.  The result pairs the returned list with the
trace of every URL handed to `get_remote_content`, in order; `none` models
an uncaught KeyError in the homepage tier. -/
def search_sitemap (fetch : String → Option NetResponse)
    (parse : String → List Xml) (url : String) :
    Option (List String × List String) :=
  match probeGo fetch url SITEMAP_SEARCH_PATHS with
  | (some u, tr) => some ([u], tr)
  | (none, tr) => robotsTier fetch parse url tr

/-! ## The object layer: `Url`, `XmlDocument`, `Sitemap`

CPython evaluates a `def`'s default argument expressions once, when the
`def` statement runs (at module import), not at each call.  The source uses
`lastmod: str = datetime.now().strftime("%Y-%m-%d")` and
`images_loc: list = []` defaults, so:
 - every default `lastmod` is the single date string captured at module
   load, held in `PyDefaults`;
 - every default `images_loc` is one shared mutable list object per `def`
   site (`Url.__init__` has one, `XmlDocument.add_url` another), held in
   `Store` and designated by an `ImagesRef`.
A caller that passes a value explicitly bypasses the default. -/

/-- The default `lastmod` strings baked at module load: one per `def` site
(`Url.__init__`, `XmlDocument.__init__`, `XmlDocument.add_url`).  All three
are `datetime.now().strftime("%Y-%m-%d")` evaluated during the same import,
modelled as one date. -/
structure PyDefaults where
  url_lastmod : String
  xmldoc_lastmod : String
  add_url_lastmod : String
deriving DecidableEq

/-- Importing the module on date `now` bakes `now` into all three default
`lastmod` expressions. -/
def loadModule (now : String) : PyDefaults := ⟨now, now, now⟩

/-- Which list object a `Url`'s `image_locations` attribute refers to: the
shared default of `Url.__init__`, the shared default of
`XmlDocument.add_url`, or a list passed explicitly. -/
inductive ImagesRef where
  | urlInitDefault
  | addUrlDefault
  | own (l : List String)
deriving DecidableEq

/-- The mutable heap: current contents of the two shared default list
objects (`Url.__init__`'s and `XmlDocument.add_url`'s `images_loc`). -/
structure Store where
  urlInitImages : List String
  addUrlImages : List String
deriving DecidableEq

/-- Both default lists are `[]` when the module is imported. -/
def Store.initial : Store := ⟨[], []⟩

/-- Dereference an `ImagesRef` in the current heap. -/
def Store.imagesOf (st : Store) : ImagesRef → List String
  | .urlInitDefault => st.urlInitImages
  | .addUrlDefault => st.addUrlImages
  | .own l => l

/-- A `Url` object: `loc`, `lastmod`, and a reference to its images list. -/
structure UrlObj where
  loc : String
  lastmod : String
  image_locations : ImagesRef
deriving DecidableEq

/-- `Url.__init__(loc, lastmod=<baked date>, images_loc=<shared list>)`.
`now` is the current date at the moment of the call; the body never reads
the clock, so `now` is unused — the default comes from `PyDefaults`. -/
def Url.init (m : PyDefaults) (now : String) (loc : String)
    (lastmod : Option String) (images_loc : Option (List String)) : UrlObj :=
  ⟨loc, lastmod.getD m.url_lastmod,
   match images_loc with
   | none => .urlInitDefault
   | some l => .own l⟩

/-- `Url.add_images(images_loc)`: `self.image_locations += images_loc`
extends, in place, whatever list object the attribute refers to — mutating
the shared module-level default when the `Url` was built without an
explicit `images_loc`. -/
def Url.add_images (st : Store) (u : UrlObj) (images_loc : List String) :
    Store × UrlObj :=
  match u.image_locations with
  | .urlInitDefault => (⟨st.urlInitImages ++ images_loc, st.addUrlImages⟩, u)
  | .addUrlDefault => (⟨st.urlInitImages, st.addUrlImages ++ images_loc⟩, u)
  | .own l => (st, ⟨u.loc, u.lastmod, .own (l ++ images_loc)⟩)

/-- `Url.as_dict()`: the record view, reading the images list from the
heap. -/
def Url.as_dict (st : Store) (u : UrlObj) : UrlRec :=
  ⟨u.loc, u.lastmod, st.imagesOf u.image_locations⟩

/-- An `XmlDocument` object: own `loc` and `lastmod` plus its `urls`. -/
structure DocObj where
  loc : String
  lastmod : String
  urls : List UrlObj
deriving DecidableEq

/-- `XmlDocument.__init__(loc, lastmod=<baked date>, include_urls=False)`:
when `include_urls` is true, fetch `get_corrected_url(loc, "")` and, on
status exactly 200, populate `urls` via `extract_url_set` (each extracted
`Url` gets explicit `loc`/`lastmod`/`images_loc`, hence `own` lists).
`now` is the ambient date at the call, unused by the body. -/
def XmlDocument.init (m : PyDefaults) (now : String)
    (fetch : String → Option NetResponse) (parse : String → List Xml)
    (loc : String) (lastmod : Option String) (include_urls : Bool) :
    Option DocObj :=
  let lm := lastmod.getD m.xmldoc_lastmod
  if include_urls then
    let file_url := get_corrected_url loc ""
    let r := get_remote_content fetch file_url
    if r.status_code = 200 then
      match extract_url_set (parse r.text) with
      | some recs =>
        some ⟨loc, lm, recs.map fun u => ⟨u.loc, u.lastmod, .own u.images⟩⟩
      | none => none
    else some ⟨loc, lm, []⟩
  else some ⟨loc, lm, []⟩

/-- `XmlDocument.add_url(loc, lastmod=<baked date>, images_loc=<shared
list>)`: appends a fresh `Url` only when `loc` is truthy; omitting
`images_loc` passes `add_url`'s own shared default list object to the
`Url`. -/
def XmlDocument.add_url (m : PyDefaults) (now : String) (d : DocObj)
    (loc : String) (lastmod : Option String)
    (images_loc : Option (List String)) : DocObj :=
  if loc ≠ "" then
    ⟨d.loc, d.lastmod,
     d.urls ++ [⟨loc, lastmod.getD m.add_url_lastmod,
       match images_loc with
       | none => .addUrlDefault
       | some l => .own l⟩]⟩
  else d

/-- `XmlDocument.as_dict()["urls"]`-style view of a document's url set. -/
def DocObj.url_set (st : Store) (d : DocObj) : List UrlRec :=
  d.urls.map (Url.as_dict st)

/-! ## Extraction Engine: `extract_sub_sitemaps` -/

/-- The comprehension of `extract_sub_sitemaps` over the document-order
element list: for each `<sitemap>` element, build
`XmlDocument(sitemap.findNext("loc").text, include_urls=include_urls)`;
a `<sitemap>` with no following `<loc>` raises AttributeError (`none`). -/
def subSitemapsGo (m : PyDefaults) (now : String)
    (fetch : String → Option NetResponse) (parse : String → List Xml)
    (include_urls : Bool) : List Xml → Option (List DocObj)
  | [] => some []
  | x :: rest =>
    if Xml.isTag "sitemap" x then
      match findNextTag "loc" rest with
      | none => none
      | some t =>
        match XmlDocument.init m now fetch parse t.textOf none include_urls,
              subSitemapsGo m now fetch parse include_urls rest with
        | some d, some ds => some (d :: ds)
        | _, _ => none
    else subSitemapsGo m now fetch parse include_urls rest

/-- `extract_sub_sitemaps(xml_as_text, include_urls)` of the source, over
the parsed forest: when the soup contains at least one `sitemapindex`
element, one `XmlDocument` per `sitemap` element; otherwise `[]`. -/
def extract_sub_sitemaps (m : PyDefaults) (now : String)
    (fetch : String → Option NetResponse) (parse : String → List Xml)
    (doc : List Xml) (include_urls : Bool) : Option (List DocObj) :=
  if 0 < ((flatDoc doc).filter (Xml.isTag "sitemapindex")).length then
    subSitemapsGo m now fetch parse include_urls (flatDoc doc)
  else some []

/-! ## Serialization Engine -/

/-- `XSL_ATTR_LIST` of the source. -/
def XSL_ATTR_LIST : List (String × String) :=
  [("xmlns", "http://www.sitemaps.org/schemas/sitemap/0.9"),
   ("xmlns:xsi", "http://www.w3.org/2001/XMLSchema-instance"),
   ("xmlns:image", "http://www.google.com/schemas/sitemap-image/1.1")]

/-- Attributes set on `<urlset>` by `write_sub_sitemap`, in the loop order
`["xmlns:xsi", "xmlns:image", "xmlns"]`. -/
def URLSET_ATTRS : List (String × String) :=
  [("xmlns:xsi", "http://www.w3.org/2001/XMLSchema-instance"),
   ("xmlns:image", "http://www.google.com/schemas/sitemap-image/1.1"),
   ("xmlns", "http://www.sitemaps.org/schemas/sitemap/0.9")]

/-- Attributes set on `<sitemapindex>` by `write_index_sitemap` (loop order
`["xmlns"]`). -/
def SITEMAPINDEX_ATTRS : List (String × String) :=
  [("xmlns", "http://www.sitemaps.org/schemas/sitemap/0.9")]

/-- The `<image:image><image:loc>..</image:loc></image:image>` element
built for one image location. -/
def imageNode (im : String) : Xml :=
  .elem "image:image" [] [.elem "image:loc" [] [.text im]]

/-- The `<url>` element built for one entry record: `<loc>`, `<lastmod>`,
then one `image:image` block per image, in order. -/
def urlNode (u : UrlRec) : Xml :=
  .elem "url" []
    ([.elem "loc" [] [.text u.loc], .elem "lastmod" [] [.text u.lastmod]] ++
      u.images.map imageNode)

/-- `write_sub_sitemap(url_set, website_name, xsl_file, path, file_name)`
of the source, up to the minidom byte serialization (an external
collaborator): the written path and the document node forest — leading
comment (preceded by the stylesheet processing instruction when `xsl_file`
is truthy), the `<urlset>` element with one `<url>` per record, and the
trailing generator comment. -/
def write_sub_sitemap (url_set : List UrlRec)
    (website_name xsl_file path file_name : String) : String × List Xml :=
  let headNodes : List Xml :=
    if xsl_file ≠ "" then
      [.procInst "xml-stylesheet" ("type=\"text/xsl\" href=\"" ++ xsl_file ++ "\""),
       .comment ("sitemap avialble at " ++ website_name ++ file_name ++ " ")]
    else
      [.comment ("sitemap avialble at " ++ website_name ++ file_name ++ " ")]
  (path ++ file_name,
   headNodes ++
     [.elem "urlset" URLSET_ATTRS (url_set.map urlNode),
      .comment "XML Sitemap generated by pysitemaps"])

/-- The `<sitemap>` element built for one child reference. -/
def sitemapNode (p : String × String) : Xml :=
  .elem "sitemap" [] [.elem "loc" [] [.text p.1], .elem "lastmod" [] [.text p.2]]

/-- `write_index_sitemap(sub_sitemaps_set, website_name, xsl_file, path,
file_name)` of the source, at the same level of abstraction as
`write_sub_sitemap`; each entry of `sub_sitemaps_set` is a
`(loc, lastmod)` pair. -/
def write_index_sitemap (sub_sitemaps_set : List (String × String))
    (website_name xsl_file path file_name : String) : String × List Xml :=
  let headNodes : List Xml :=
    if xsl_file ≠ "" then
      [.procInst "xml-stylesheet" ("type=\"text/xsl\" href=\"" ++ xsl_file ++ "\""),
       .comment ("sitemap avialble at " ++ website_name ++ file_name ++ " ")]
    else
      [.comment ("sitemap avialble at " ++ website_name ++ file_name ++ " ")]
  (path ++ file_name,
   headNodes ++
     [.elem "sitemapindex" SITEMAPINDEX_ATTRS (sub_sitemaps_set.map sitemapNode),
      .comment "XML Index Sitemap generated by pysitemaps"])

/-! ## Sitemap Aggregate -/

/-- A `Sitemap` object: site identity, stylesheet reference, construction
path, and `content = parent document + sub_sitemaps`. -/
structure SitemapObj where
  website_name : String
  xsl_file : String
  file_path : String
  parent : DocObj
  sub_sitemaps : List DocObj
deriving DecidableEq

/-- `Sitemap.__init__(website_name=None, file_path="", xsl_file="")`: a
falsy `website_name` (absent, `None`, or `""`) raises (the source's
`raise <str>` is itself a `TypeError`, still an immediate abort), modelled
as `none`; otherwise the identity is stored and the parent document is
`XmlDocument(file_path)`. -/
def Sitemap.init (m : PyDefaults) (now : String)
    (fetch : String → Option NetResponse) (parse : String → List Xml)
    (website_name : Option String) (file_path : String) (xsl_file : String) :
    Option SitemapObj :=
  match website_name with
  | none => none
  | some n =>
    if n = "" then none
    else
      (XmlDocument.init m now fetch parse file_path none false).map
        fun parent => ⟨n, xsl_file, file_path, parent, []⟩

/-- `Sitemap.write(path)` of the source: the ordered list of files written
(each as target path plus document forest).  One leaf sitemap per
sub-sitemap with a non-empty url set; then, if there are sub-sitemaps, the
index file; otherwise the root alone when its url set is non-empty.
File names are `loc.split("/")[-1]`. -/
def Sitemap.write (st : Store) (s : SitemapObj) (path : String) :
    List (String × List Xml) :=
  let parent_sitemap := s.parent
  let sub_sitemaps := s.sub_sitemaps
  let subFiles := sub_sitemaps.filterMap fun sub =>
    let sitemap_name := pyAfterLast "/" sub.loc
    let url_set := sub.url_set st
    if url_set ≠ [] then
      some (write_sub_sitemap url_set s.website_name s.xsl_file path sitemap_name)
    else none
  if sub_sitemaps ≠ [] then
    let sitemap_name := pyAfterLast "/" parent_sitemap.loc
    let sub_sitemaps_set := sub_sitemaps.map fun it => (it.loc, it.lastmod)
    if sub_sitemaps_set ≠ [] then
      subFiles ++ [write_index_sitemap sub_sitemaps_set s.website_name s.xsl_file path sitemap_name]
    else subFiles
  else
    let sitemap_name := pyAfterLast "/" parent_sitemap.loc
    let url_set := parent_sitemap.url_set st
    if url_set ≠ [] then
      subFiles ++ [write_sub_sitemap url_set s.website_name s.xsl_file path sitemap_name]
    else subFiles

/-! ## Specification-side descriptions of the extraction functions

These restate, as total functions, what `extract_url_set` and
`extract_sub_sitemaps` compute, using the corrected reading of `findNext`:
the first matching element after the current one in document order (its own
descendants first), not "first descendant".  They are compared with the
source-faithful definitions in the theorems below. -/

/-- Does every `image:image` among the descendants `ds` have a following
`image:loc` (so that the source raises no AttributeError)? -/
def imagesOkPair : List Xml → List Xml → Bool
  | [], _ => true
  | d :: ds, after =>
    if Xml.isTag "image:image" d then
      (findNextTag "image:loc" (ds ++ after)).isSome && imagesOkPair ds after
    else imagesOkPair ds after

/-- The image locations of one `<url>`: the text of the first `image:loc`
following each `image:image` descendant (`""` when none exists). -/
def specImages : List Xml → List Xml → List String
  | [], _ => []
  | d :: ds, after =>
    if Xml.isTag "image:image" d then
      (findNextTag "image:loc" (ds ++ after)).elim "" Xml.textOf :: specImages ds after
    else specImages ds after

/-- Does no `<url>` element of the document trigger an AttributeError in
the image comprehension? -/
def imagesOkAll : List Xml → Bool
  | [] => true
  | x :: rest =>
    if Xml.isTag "url" x then
      imagesOkPair x.descElems (rest.drop x.descElems.length) && imagesOkAll rest
    else imagesOkAll rest

/-- One entry per `<url>` element: `loc` / `lastmod` are the text of the
first `loc` / `lastmod` element following the `<url>` in document order
(`""` when no such element follows), images as in `specImages`. -/
def specEntriesGo : List Xml → List UrlRec
  | [] => []
  | x :: rest =>
    if Xml.isTag "url" x then
      ⟨(findNextTag "loc" rest).elim "" Xml.textOf,
       (findNextTag "lastmod" rest).elim "" Xml.textOf,
       specImages x.descElems (rest.drop x.descElems.length)⟩ :: specEntriesGo rest
    else specEntriesGo rest

/-- Does every `<sitemap>` element have a following `<loc>` (so that
`extract_sub_sitemaps` raises no AttributeError)? -/
def sitemapsHaveLocs : List Xml → Bool
  | [] => true
  | x :: rest =>
    if Xml.isTag "sitemap" x then
      (findNextTag "loc" rest).isSome && sitemapsHaveLocs rest
    else sitemapsHaveLocs rest

/-- One empty document per `<sitemap>` element, keyed by the text of the
first `<loc>` following it in document order, with the module-load default
`lastmod` (the eager-fetch flag off). -/
def specSubDocs (m : PyDefaults) : List Xml → List DocObj
  | [] => []
  | x :: rest =>
    if Xml.isTag "sitemap" x then
      ⟨(findNextTag "loc" rest).elim "" Xml.textOf, m.xmldoc_lastmod, []⟩ ::
        specSubDocs m rest
    else specSubDocs m rest

/-! ## Concrete collaborators for counterexamples and witnesses -/

/-- Fetch oracle for the probe short-circuit witness: the first probe
redirects to a non-`.xml` address with status 200 (status below 400 but no
short-circuit), the second resolves to a `.xml` address with status 200,
everything else fails. -/
def fetchProbe : String → Option NetResponse := fun u =>
  if u = "http://ex.com/wp-sitemap.xml" then
    some ⟨200, "http://ex.com/wp-sitemap", ""⟩
  else if u = "http://ex.com/sitemap_index.xml" then
    some ⟨200, "http://ex.com/sitemap_index.xml", ""⟩
  else none

/-- Fetch oracle for the robots/homepage counterexample: every probe and
the robots fetch yield a real response with status 404 (the robots fetch
yields a response with zero `Sitemap:` lines), and the homepage yields
status 200 with body `"HP"`. -/
def fetchRobots404 : String → Option NetResponse := fun u =>
  if u = "http://s.com/" then some ⟨200, u, "HP"⟩
  else some ⟨404, u, ""⟩

/-- Parse collaborator mapping the homepage body `"HP"` to one `<link>`
carrying a `sitemap` attribute and an `href`. -/
def parseHomepage : String → List Xml := fun t =>
  if t = "HP" then
    [.elem "link" [("sitemap", ""), ("href", "http://s.com/found.xml")] []]
  else []

/-- A fetch collaborator that always raises (models the network being
down: `get_remote_content` returns the mock sentinel everywhere). -/
def fetchDown : String → Option NetResponse := fun _ => none

/-- A parse collaborator returning an empty soup. -/
def parseEmpty : String → List Xml := fun _ => []

/-- Input refuting the "first descendant" reading of `extract_url_set`: a
`<url>` with no children at all, followed by a `<url>` holding `lastmod`
and `loc`. -/
def twoUrlDoc : List Xml :=
  [.elem "urlset" []
    [.elem "url" [] [],
     .elem "url" [] [.elem "lastmod" [] [.text "2020"],
                     .elem "loc" [] [.text "b"]]]]

/-- Input refuting "one Document per `<sitemap>` element" on degenerate
input: an index whose single `<sitemap>` has no `<loc>` anywhere after it. -/
def indexNoLocDoc : List Xml :=
  [.elem "sitemapindex" [] [.elem "sitemap" [] []]]

/-! # Theorems

Helper lemmas first, then one theorem per claim (with witnesses and
counterexamples where required). -/

theorem elemsList_append (xs ys : List Xml) :
    Xml.elemsList (xs ++ ys) = Xml.elemsList xs ++ Xml.elemsList ys := by
  induction xs with
  | nil => rfl
  | cons x xs ih => simp [Xml.elemsList, ih]

theorem isTag_elem (t u : String) (a : List (String × String)) (c : List Xml) :
    Xml.isTag t (.elem u a c) = decide (u = t) := by
  simp [Xml.isTag, Xml.tagOf]

theorem findNextTag_cons (t : String) (x : Xml) (r : List Xml) :
    findNextTag t (x :: r) = if Xml.isTag t x then some x else findNextTag t r := by
  by_cases h : Xml.isTag t x
  · simp [findNextTag, List.find?_cons_of_pos, h]
  · simp [findNextTag, List.find?_cons_of_neg, h]

theorem str_append_empty (s : String) : s ++ "" = s := String.append_empty s

example : Xml.isTag "url" (.elem "loc" [] []) = false := by simp [isTag_elem]
example : Xml.textOf (.elem "loc" [] [.text "a"]) = "a" := by
  simp [Xml.textOf, Xml.textList, str_append_empty]

theorem imagesGo_imageBlocks (ims : List String) (after : List Xml) :
    imagesGo (Xml.elemsList (ims.map imageNode)) after = some ims := by
  induction ims with
  | nil => rfl
  | cons im ims ih =>
    simp [imageNode, Xml.elemsList, Xml.elemsPre, imagesGo, findNextTag_cons,
          isTag_elem, Xml.textOf, Xml.textList, str_append_empty, ih]

theorem extractGo_imageBlocks (ims : List String) (r : List Xml) :
    extractGo (Xml.elemsList (ims.map imageNode) ++ r) = extractGo r := by
  induction ims with
  | nil => rfl
  | cons im ims ih =>
    simp [imageNode, Xml.elemsList, Xml.elemsPre, extractGo, isTag_elem, ih]

theorem extractGo_urlBlocks (us : List UrlRec) :
    extractGo (Xml.elemsList (us.map urlNode)) = some us := by
  induction us with
  | nil => rfl
  | cons u us ih =>
    simp [urlNode, Xml.elemsList, Xml.elemsPre, elemsList_append, extractGo,
          isTag_elem, findNextTag_cons, Xml.textOf, Xml.textList, str_append_empty,
          Xml.descElems, List.drop_succ_cons, List.drop_left,
          imagesGo_imageBlocks, extractGo_imageBlocks, imagesGo, ih]

/-- Claim C2: serializing any entry list via `write_sub_sitemap` and
running `extract_url_set` on the produced document yields exactly the input
entries back — same `loc`, same `lastmod`, same images in the same order
(in particular for `[{loc:"a.html", lastmod:"2022", images:["abc.png"]}]`). -/
theorem c2_serialize_extract_roundtrip (us : List UrlRec)
    (website xsl path fname : String) :
    extract_url_set (write_sub_sitemap us website xsl path fname).2 = some us := by
  have key := extractGo_urlBlocks us
  by_cases h : xsl = "" <;>
    simp [write_sub_sitemap, extract_url_set, flatDoc, h, Xml.elemsList,
          Xml.elemsPre, elemsList_append, extractGo, isTag_elem, key]

theorem imagesGo_eq_spec (ds after : List Xml) :
    imagesGo ds after =
      if imagesOkPair ds after then some (specImages ds after) else none := by
  induction ds with
  | nil => rfl
  | cons d ds ih =>
    by_cases ht : Xml.isTag "image:image" d
    · cases hf : findNextTag "image:loc" (ds ++ after) <;>
        by_cases hok : imagesOkPair ds after <;>
          simp [imagesGo, specImages, imagesOkPair, ht, ih, hf, hok]
    · simp [imagesGo, specImages, imagesOkPair, ht, ih]

theorem extractGo_eq_spec (l : List Xml) :
    extractGo l =
      if imagesOkAll l then some (specEntriesGo l) else none := by
  induction l with
  | nil => rfl
  | cons x rest ih =>
    by_cases ht : Xml.isTag "url" x
    · cases hloc : findNextTag "loc" rest <;>
        cases hlm : findNextTag "lastmod" rest <;>
          by_cases h1 : imagesOkPair x.descElems (rest.drop x.descElems.length) <;>
            by_cases h2 : imagesOkAll rest <;>
              simp [extractGo, specEntriesGo, imagesOkAll, ht, hloc, hlm, h1, h2,
                    imagesGo_eq_spec, ih]
    · simp [extractGo, specEntriesGo, imagesOkAll, ht, ih]

/-- Claim C4 (amended): `extract_url_set` produces one entry per `<url>`
element whenever no `image:image` lacks a following `image:loc` (otherwise
it raises).  Each entry's `loc` (resp. `lastmod`) is the text of the first
`loc` (resp. `lastmod`) element *following the `<url>` in document order* —
its own descendants come first, but a `<url>` without such a descendant
picks up the next occurrence later in the document — and is `""` only when
no such element follows at all.  With zero `<url>` elements the result is
the empty sequence. -/
theorem c4_extract_entries_follow_document_order (doc : List Xml) :
    extract_url_set doc =
      if imagesOkAll (flatDoc doc) then some (specEntriesGo (flatDoc doc))
      else none :=
  extractGo_eq_spec (flatDoc doc)

/-- Claim C4 counterexample: on a `<url>` with no descendants at all,
followed by a `<url>` holding `<lastmod>2020</lastmod><loc>b</loc>`, the
source does not return `loc = ""`, `lastmod = ""` for the first entry (as
the first-descendant reading predicts): `findNext` reaches into the second
`<url>` and returns `loc = "b"`, `lastmod = "2020"`. -/
theorem c4_counterexample :
    extract_url_set twoUrlDoc = some [⟨"b", "2020", []⟩, ⟨"b", "2020", []⟩] ∧
    extract_url_set twoUrlDoc ≠ some [⟨"", "", []⟩, ⟨"b", "2020", []⟩] := by
  decide

theorem subSitemapsGo_eq_spec (m : PyDefaults) (now : String)
    (fetch : String → Option NetResponse) (parse : String → List Xml)
    (l : List Xml) :
    subSitemapsGo m now fetch parse false l =
      if sitemapsHaveLocs l then some (specSubDocs m l) else none := by
  induction l with
  | nil => rfl
  | cons x rest ih =>
    by_cases ht : Xml.isTag "sitemap" x
    · cases hf : findNextTag "loc" rest <;>
        by_cases hk : sitemapsHaveLocs rest <;>
          simp [subSitemapsGo, specSubDocs, sitemapsHaveLocs, XmlDocument.init,
                ht, hf, hk, ih]
    · simp [subSitemapsGo, specSubDocs, sitemapsHaveLocs, ht, ih]

/-- Claim C5 (amended): with eager fetching off, `extract_sub_sitemaps`
returns the empty sequence whenever the input has no `sitemapindex`
element; otherwise it yields one Document per `<sitemap>` element — keyed
by the text of the first `<loc>` following that `<sitemap>` in document
order (its own `<loc>` descendant when it has one) — provided every
`<sitemap>` has such a following `<loc>`; a `<sitemap>` with none aborts
the extraction with an AttributeError instead of producing Documents. -/
theorem c5_extract_sub_sitemaps_spec (m : PyDefaults) (now : String)
    (fetch : String → Option NetResponse) (parse : String → List Xml)
    (doc : List Xml) :
    extract_sub_sitemaps m now fetch parse doc false =
      if 0 < ((flatDoc doc).filter (Xml.isTag "sitemapindex")).length then
        if sitemapsHaveLocs (flatDoc doc) then
          some (specSubDocs m (flatDoc doc))
        else none
      else some [] := by
  by_cases h : 0 < ((flatDoc doc).filter (Xml.isTag "sitemapindex")).length <;>
    simp [extract_sub_sitemaps, h, subSitemapsGo_eq_spec]

/-- Claim C5 counterexample: an index document with exactly one
`<sitemap>` element that has no `<loc>` anywhere after it does not yield
one Document per `<sitemap>`: the source raises (AttributeError on
`findNext("loc").text`) and produces nothing. -/
theorem c5_counterexample :
    ((flatDoc indexNoLocDoc).filter (Xml.isTag "sitemapindex")).length = 1 ∧
    ((flatDoc indexNoLocDoc).filter (Xml.isTag "sitemap")).length = 1 ∧
    extract_sub_sitemaps (loadModule "2023-01-01") "2023-01-01" fetchDown
      parseEmpty indexNoLocDoc false = none := by
  decide

theorem probeGo_found (fetch : String → Option NetResponse) (url : String)
    (pre : List String) (p : String) (post : List String)
    (hpre : ∀ q ∈ pre, probeCond fetch url q = false)
    (hp : probeCond fetch url p = true) :
    probeGo fetch url (pre ++ p :: post) =
      (some (get_remote_content fetch (url ++ p)).url,
       pre.map (url ++ ·) ++ [url ++ p]) := by
  induction pre with
  | nil =>
    simp only [probeCond] at hp
    simp [probeGo, hp]
  | cons q pre ih =>
    have hq := hpre q (by simp)
    simp only [probeCond] at hq
    have ih := ih fun r hr => hpre r (by simp [hr])
    simp [probeGo, hq, ih]

theorem probeGo_exhaust (fetch : String → Option NetResponse) (url : String)
    (ps : List String) (h : ∀ q ∈ ps, probeCond fetch url q = false) :
    probeGo fetch url ps = (none, ps.map (url ++ ·)) := by
  induction ps with
  | nil => rfl
  | cons q ps ih =>
    have hq := h q (by simp)
    simp only [probeCond] at hq
    have ih := ih fun r hr => h r (by simp [hr])
    simp [probeGo, hq, ih]

/-- Claim C1: `search_sitemap` walks the fixed probe list in order; at the
first suffix whose response has status below 400 *and* resolved URL ending
in `".xml"` it returns that single resolved URL, having fetched exactly the
earlier probe URLs plus this one — no later suffix, no robots.txt, no
homepage.  A probe with status below 400 whose resolved URL does not end in
`".xml"` is covered by `hpre`: it neither short-circuits nor contributes. -/
theorem c1_probe_short_circuit (fetch : String → Option NetResponse)
    (parse : String → List Xml) (url : String)
    (pre : List String) (p : String) (post : List String)
    (hsplit : SITEMAP_SEARCH_PATHS = pre ++ p :: post)
    (hpre : ∀ q ∈ pre, probeCond fetch url q = false)
    (hp : probeCond fetch url p = true) :
    search_sitemap fetch parse url =
      some ([(get_remote_content fetch (url ++ p)).url],
            pre.map (url ++ ·) ++ [url ++ p]) := by
  unfold search_sitemap
  rw [hsplit, probeGo_found fetch url pre p post hpre hp]

/-- Claim C1 witness: under `fetchProbe`, the first probe
(`wp-sitemap.xml`) answers 200 but resolves to a non-`.xml` address, so
probing continues; the second probe succeeds and is returned alone, with
exactly two fetches performed. -/
theorem c1_witness :
    probeCond fetchProbe "http://ex.com/" "wp-sitemap.xml" = false ∧
    probeCond fetchProbe "http://ex.com/" "sitemap_index.xml" = true ∧
    search_sitemap fetchProbe parseEmpty "http://ex.com/" =
      some (["http://ex.com/sitemap_index.xml"],
            ["http://ex.com/wp-sitemap.xml", "http://ex.com/sitemap_index.xml"]) :=
  ⟨by decide, by decide,
    (c1_probe_short_circuit fetchProbe parseEmpty "http://ex.com/"
      ["wp-sitemap.xml"] "sitemap_index.xml"
      ["sitemap.xml", "sitemapindex.xml", "sitemap-index.xml", "sitemap1.xml",
       "sitemap.php", "sitemap/", "sitemas/", "sitemas.xml", "sitemap.txt",
       "sitemap.xml.gz", "post-sitemap.xml", "page-sitemap.xml",
       "news-sitemap.xml"]
      rfl (by decide) (by decide)).trans (by decide)⟩

/-- Claim C3 counterexample: with every probe and the robots.txt fetch
yielding a real 404 response (the robots fetch *does* yield a response,
holding zero `Sitemap:` lines), `search_sitemap` does not return the empty
robots-declared set — it goes on to fetch the homepage (last trace entry)
and returns the homepage's sitemap-link `href`. -/
theorem c3_counterexample :
    fetchRobots404 "http://s.com/robots.txt" =
      some ⟨404, "http://s.com/robots.txt", ""⟩ ∧
    sitemapLines "" = [] ∧
    search_sitemap fetchRobots404 parseHomepage "http://s.com/" =
      some (["http://s.com/found.xml"],
            SITEMAP_SEARCH_PATHS.map (fun p => "http://s.com/" ++ p) ++
              ["http://s.com/robots.txt", "http://s.com/"]) ∧
    (["http://s.com/found.xml"] : List String) ≠ [] := by
  decide

/-- Claim C3 (amended): after the probe list is exhausted, the homepage
tier is reached exactly when the robots fetch yields a real response with
status at least 400.  When the robots fetch fails entirely, the sentinel
mock is truthy, so the robots tier returns the empty deduplicated set
without consulting the homepage; a robots response with status below 400
returns the deduplicated `Sitemap:` set, again without consulting the
homepage. -/
theorem c3_homepage_only_on_error_status_robots
    (fetch : String → Option NetResponse) (parse : String → List Xml)
    (url : String)
    (hprobe : ∀ p ∈ SITEMAP_SEARCH_PATHS, probeCond fetch url p = false) :
    (fetch (url ++ "robots.txt") = none →
      search_sitemap fetch parse url =
        some ([], SITEMAP_SEARCH_PATHS.map (url ++ ·) ++ [url ++ "robots.txt"])) ∧
    (∀ r, fetch (url ++ "robots.txt") = some r → r.status_code < 400 →
      search_sitemap fetch parse url =
        some (pySet (sitemapLines r.text),
              SITEMAP_SEARCH_PATHS.map (url ++ ·) ++ [url ++ "robots.txt"])) ∧
    (∀ r, fetch (url ++ "robots.txt") = some r → 400 ≤ r.status_code →
      search_sitemap fetch parse url =
        homepageTier fetch parse url
          (SITEMAP_SEARCH_PATHS.map (url ++ ·) ++ [url ++ "robots.txt"])) := by
  have hGo := probeGo_exhaust fetch url SITEMAP_SEARCH_PATHS hprobe
  refine ⟨fun hnone => ?_, fun r hr hlt => ?_, fun r hr hge => ?_⟩
  · unfold search_sitemap
    rw [hGo]
    simp [robotsTier, get_remote_content, hnone, mock_requests_object, respTruthy]
    decide
  · unfold search_sitemap
    rw [hGo]
    simp [robotsTier, get_remote_content, hr, respTruthy, hlt]
  · unfold search_sitemap
    rw [hGo]
    have : ¬ r.status_code < 400 := by omega
    simp [robotsTier, get_remote_content, hr, respTruthy, this]

/-- Claim C3 witness (amended claim): when the network is entirely down,
every fetch raises, the robots sentinel is truthy, and the result is the
empty set with the homepage never fetched. -/
theorem c3_amended_witness :
    (∀ p ∈ SITEMAP_SEARCH_PATHS, probeCond fetchDown "http://w.com/" p = false) ∧
    fetchDown ("http://w.com/" ++ "robots.txt") = none ∧
    search_sitemap fetchDown parseEmpty "http://w.com/" =
      some ([], SITEMAP_SEARCH_PATHS.map (fun p => "http://w.com/" ++ p) ++
        ["http://w.com/robots.txt"]) :=
  ⟨by decide, rfl,
   ((c3_homepage_only_on_error_status_robots fetchDown parseEmpty "http://w.com/"
      (by decide)).1 rfl).trans (by decide)⟩

/-- Claim C6: constructing a `Sitemap` without a site identity (argument
absent/None or empty) raises and produces no object; any non-empty
`website_name` yields an aggregate storing that identity (with the parent
document keyed by `file_path` and no sub-sitemaps). -/
theorem c6_sitemap_requires_site_name (m : PyDefaults) (now : String)
    (fetch : String → Option NetResponse) (parse : String → List Xml)
    (file_path xsl : String) :
    (∀ n, n ≠ "" →
      Sitemap.init m now fetch parse (some n) file_path xsl =
        some ⟨n, xsl, file_path, ⟨file_path, m.xmldoc_lastmod, []⟩, []⟩) ∧
    Sitemap.init m now fetch parse none file_path xsl = none ∧
    Sitemap.init m now fetch parse (some "") file_path xsl = none := by
  refine ⟨fun n hn => ?_, rfl, ?_⟩
  · simp [Sitemap.init, XmlDocument.init, hn]
  · simp [Sitemap.init]

/-- Claim C6 witness: `"seowings.org"` is non-empty and construction with
it succeeds, storing the identity. -/
theorem c6_witness :
    ("seowings.org" : String) ≠ "" ∧
    Sitemap.init (loadModule "2023-01-01") "2023-01-01" fetchDown parseEmpty
        (some "seowings.org") "" "" =
      some ⟨"seowings.org", "", "", ⟨"", "2023-01-01", []⟩, []⟩ :=
  ⟨by decide,
   ((c6_sitemap_requires_site_name (loadModule "2023-01-01") "2023-01-01"
      fetchDown parseEmpty "" "").1 "seowings.org" (by decide)).trans
     (by decide)⟩

/-- Claim C7: `Sitemap.write` on an aggregate with no sub-sitemaps and an
empty parent url set writes no file at all and raises nothing. -/
theorem c7_write_nothing_when_empty (st : Store) (s : SitemapObj)
    (path : String) (hsub : s.sub_sitemaps = [])
    (hurls : s.parent.urls = []) :
    Sitemap.write st s path = [] := by
  simp [Sitemap.write, hsub, DocObj.url_set, hurls]

/-- Claim C7 witness: a freshly constructed aggregate (no sub-sitemaps, no
root entries) produces zero output files. -/
theorem c7_witness :
    (⟨"seowings.org", "", "", ⟨"", "2023-01-01", []⟩, []⟩ :
        SitemapObj).sub_sitemaps = [] ∧
    (⟨"seowings.org", "", "", ⟨"", "2023-01-01", []⟩, []⟩ :
        SitemapObj).parent.urls = [] ∧
    Sitemap.write Store.initial
        ⟨"seowings.org", "", "", ⟨"", "2023-01-01", []⟩, []⟩ "" = [] :=
  ⟨rfl, rfl, c7_write_nothing_when_empty Store.initial _ "" rfl rfl⟩

theorem filter_map_head_eq_find (p : String → Bool) (g : String → String)
    (l : List String) :
    (match (l.filter p).map pyStrip with
     | [] => ""
     | a :: _ => g a) = (l.find? p).elim "" (fun a => g (pyStrip a)) := by
  induction l with
  | nil => rfl
  | cons x xs ih => by_cases h : p x <;> simp [List.filter_cons, List.find?, h, ih]

/-- Claim C8 (amended): `extract_xsl_file` looks at the *first* line
containing `".xsl"` and returns the stripped line's segment after the last
`href="` (the whole stripped line when `href="` is absent) truncated
before the first `"?>` (kept to the end when `"?>` is absent); it returns
`""` when no line contains `".xsl"`.  A malformed matching line therefore
yields that raw remainder, not `""` — the source's `except` fallback is
unreachable since `split` never raises. -/
theorem c8_extract_xsl_first_line (text : String) :
    extract_xsl_file text =
      ((pySplit "\n" text).find? (fun item => pyContains ".xsl" item)).elim ""
        (fun line => pyBeforeFirst "\"?>" (pyAfterLast "href=\"" (pyStrip line))) := by
  unfold extract_xsl_file
  exact filter_map_head_eq_find _ _ _

/-- Claim C8 counterexample: `"blah.xsl"` is a line containing `".xsl"`
with no `href="` marker (malformed), yet extraction returns the whole line
`"blah.xsl"`, not the empty string the claim predicts for a malformed
line. -/
theorem c8_counterexample :
    pyContains ".xsl" "blah.xsl" = true ∧
    pyContains "href=\"" "blah.xsl" = false ∧
    extract_xsl_file "blah.xsl" = "blah.xsl" ∧
    ("blah.xsl" : String) ≠ "" := by decide

/-- Claim C9 counterexample: with the module imported on 2023-01-01 and a
`Url` / `XmlDocument` constructed on 2023-05-05 without an explicit
`lastmod`, the field is the import date, not the construction date; a
second construction on 2023-06-06 receives the *same* default. -/
theorem c9_counterexample :
    (Url.init (loadModule "2023-01-01") "2023-05-05" "a.html" none none).lastmod
      = "2023-01-01" ∧
    (Url.init (loadModule "2023-01-01") "2023-05-05" "a.html" none none).lastmod
      ≠ "2023-05-05" ∧
    (XmlDocument.init (loadModule "2023-01-01") "2023-05-05" fetchDown
        parseEmpty "s.xml" none false).map DocObj.lastmod = some "2023-01-01" ∧
    (Url.init (loadModule "2023-01-01") "2023-05-05" "a.html" none none).lastmod
      = (Url.init (loadModule "2023-01-01") "2023-06-06" "b.html" none none).lastmod := by
  decide

/-- Claim C9 (amended): the default `lastModified` of `Url.__init__` and
`XmlDocument.__init__` is the single date string evaluated when the module
was imported (`datetime.now()` in the default-argument expression runs at
`def` time); every construction that omits `lastmod` receives that same
baked date, whatever the current date `now` at construction is. -/
theorem c9_lastmod_default_is_module_load_date (load now now2 loc loc2 : String)
    (imgs imgs2 : Option (List String))
    (fetch : String → Option NetResponse) (parse : String → List Xml) :
    (Url.init (loadModule load) now loc none imgs).lastmod = load ∧
    (Url.init (loadModule load) now loc none imgs).lastmod
      = (Url.init (loadModule load) now2 loc2 none imgs2).lastmod ∧
    (XmlDocument.init (loadModule load) now fetch parse loc none false).map
        DocObj.lastmod = some load := by
  refine ⟨rfl, rfl, ?_⟩
  simp [XmlDocument.init, loadModule]

/-- Claim C10: every `Url` built without an explicit `images_loc` aliases
`Url.__init__`'s single default list object, so `add_images` on any one of
them is visible in the `as_dict` output of every other such `Url`,
including ones constructed afterwards (construction never copies the
list); analogously, every url appended through `add_url` without images
aliases `add_url`'s own shared default list. -/
theorem c10_default_images_shared (st : Store) (m : PyDefaults)
    (n1 a : String) (lm1 : Option String) (l : List String) (hl : l ≠ []) :
    (∀ n2 b lm2,
      (Url.as_dict (Url.add_images st (Url.init m n1 a lm1 none) l).1
        (Url.init m n2 b lm2 none)).images = st.urlInitImages ++ l) ∧
    (∀ (d d2 : DocObj) (n2 n3 x y : String) (lmx lmy : Option String),
      x ≠ "" → y ≠ "" →
      (Url.as_dict
        (Url.add_images st
          (((XmlDocument.add_url m n2 d x lmx none).urls.getLast?).getD
            ⟨x, "", .own []⟩) l).1
        (((XmlDocument.add_url m n3 d2 y lmy none).urls.getLast?).getD
          ⟨y, "", .own []⟩)).images = st.addUrlImages ++ l) := by
  constructor
  · intro n2 b lm2
    simp [Url.init, Url.add_images, Url.as_dict, Store.imagesOf]
  · intro d d2 n2 n3 x y lmx lmy hx hy
    simp [XmlDocument.add_url, hx, hy, List.getLast?_concat,
          Url.add_images, Url.as_dict, Store.imagesOf]

/-- Claim C10 witness: starting from the pristine heap, appending
`["img.png"]` to one default-constructed `Url` makes it appear in the
record of a different `Url` constructed afterwards with other arguments. -/
theorem c10_witness :
    (["img.png"] : List String) ≠ [] ∧
    (Url.as_dict (Url.add_images Store.initial
        (Url.init (loadModule "2023-01-01") "2023-01-01" "a.html" none none)
        ["img.png"]).1
      (Url.init (loadModule "2023-01-01") "2023-02-02" "c.html" none none)).images
      = ["img.png"] :=
  ⟨by decide,
   ((c10_default_images_shared Store.initial (loadModule "2023-01-01")
      "2023-01-01" "a.html" none ["img.png"] (by decide)).1
      "2023-02-02" "c.html" none).trans (by decide)⟩
